import Mathlib

/-!
Verification of the HuskyLens I2C protocol driver (`qwiic_huskylens.py`).

The driver talks to the sensor over a byte-oriented bus.  We embed the
driver shallowly: the bus input is a `List Nat` of pending bytes, a read
consumes a prefix of it, and an operation returns its result together
with the unread remainder of the stream and the list of packets it wrote.
`Option` models Python exceptions (IndexError) and the unbounded blocking
read loop: `none` means the Python code would not return normally.
All byte arithmetic is on `Nat` with explicit `% 256` where the source
masks with `& 0xFF`.
-/

namespace HuskyLens

/-- Command code constants from the `QwiicHuskyLens` class. -/
def kCommandRequest : Nat := 0x20

def kCommandRequestBlocks : Nat := 0x21

def kCommandRequestArrows : Nat := 0x22

def kCommandReturnInfo : Nat := 0x29

def kCommandReturnBlock : Nat := 0x2A

def kCommandReturnArrow : Nat := 0x2B

def kCommandRequestKnock : Nat := 0x2C

def kCommandRequestAlgorithm : Nat := 0x2D

def kCommandReturnOk : Nat := 0x2E

def kCommandRequestCustomNames : Nat := 0x2F

def kCommandRequestForget : Nat := 0x37

def kCommandRequestIsPro : Nat := 0x3B

def kCommandReturnIsPro : Nat := 0x3B

def kCommandReturnBusy : Nat := 0x3D

def kCommandReturnNeedPro : Nat := 0x3E

/-- Algorithm code constants. -/
def kAlgorithmFaceRecognition : Nat := 0x00

def kAlgorithmObjectTracking : Nat := 0x01

def kAlgorithmObjectRecognition : Nat := 0x02

def kAlgorithmLineTracking : Nat := 0x03

def kAlgorithmColorRecognition : Nat := 0x04

def kAlgorithmTagRecognition : Nat := 0x05

def kAlgorithmObjectClassification : Nat := 0x06

/-- Source `_checksum`: low byte of the sum of all bytes of the packet
(`sum(pkt) & 0xFF`). -/
def checksum (pkt : List Nat) : Nat := pkt.sum % 256

/-- The packet assembled by `_send_command`: header `0x55 0xAA`,
address `0x11`, data length, command, data, then the checksum of
everything so far.  (The source then writes this packet to the bus;
we return the bytes.) -/
def sendCommandPkt (command : Nat) (data : List Nat) : List Nat :=
  let pkt := [0x55, 0xAA, 0x11, data.length, command] ++ data
  pkt ++ [checksum pkt]

/-- The fields the `_Response` constructor extracts from a raw packet. -/
structure Response where
  header : Nat
  header2 : Nat
  address : Nat
  dlen : Nat
  command : Nat
  data : List Nat
  chk : Nat
  valid : Bool
deriving DecidableEq, Repr

/-- Source `_Response.__init__`: field extraction by position
(`pkt[0] .. pkt[4]`, `pkt[5:-1]`, `pkt[-1]`) and the validity flag
`checksum == sum(pkt[:-1]) & 0xFF`.  Python raises IndexError when the
list has fewer than 5 elements, modelled by `none`. -/
def decodeResponse (pkt : List Nat) : Option Response :=
  if 5 ≤ pkt.length then
    some { header := pkt.getD 0 0
           header2 := pkt.getD 1 0
           address := pkt.getD 2 0
           dlen := pkt.getD 3 0
           command := pkt.getD 4 0
           data := (pkt.drop 5).dropLast
           chk := pkt.getLastD 0
           valid := pkt.getLastD 0 == pkt.dropLast.sum % 256 }
  else none

/-- Source `_get_response`: read single bytes until the sentinel `0x55` appears,
then 4 header-tail bytes, then `declared length + 1` further bytes
(payload plus checksum), and decode the concatenation.  The bus is the
`stream` argument; a read past its end (or a sentinel that never comes)
blocks the Python loop forever, modelled by `none`. -/
def readFrame : List Nat → Option (Response × List Nat)
  | [] => none
  | first :: rest1 =>
    if 4 ≤ rest1.length then
      if (rest1.take 4).getD 2 0 + 1 ≤ (rest1.drop 4).length then
        match decodeResponse
            (first :: (rest1.take 4 ++ (rest1.drop 4).take ((rest1.take 4).getD 2 0 + 1))) with
        | none => none
        | some r => some (r, (rest1.drop 4).drop ((rest1.take 4).getD 2 0 + 1))
      else none
    else none

def getResponse (stream : List Nat) : Option (Response × List Nat) :=
  readFrame (stream.dropWhile (fun b => b != 0x55))

/-- A byte sequence shaped like one wire frame: it starts with the
sentinel `0x55` and its total length is `6 + declared payload length`
(two header bytes, address, length, command, payload, checksum). -/
def IsFrame (pkt : List Nat) : Prop :=
  pkt.headD 0 = 0x55 ∧ pkt.length = 6 + pkt.getD 3 0

instance (pkt : List Nat) : Decidable (IsFrame pkt) := by
  unfold IsFrame; infer_instance

/-- The checksum invariant of the wire format: the final byte equals the
sum of all preceding bytes mod 256. -/
def ChecksumOk (pkt : List Nat) : Prop :=
  pkt.getLastD 0 = pkt.dropLast.sum % 256

instance (pkt : List Nat) : Decidable (ChecksumOk pkt) := by
  unfold ChecksumOk; infer_instance

/-- A well-formed packet: frame-shaped and checksum-correct. -/
def WellFormed (pkt : List Nat) : Prop := IsFrame pkt ∧ ChecksumOk pkt

instance (pkt : List Nat) : Decidable (WellFormed pkt) := by
  unfold WellFormed; infer_instance

/-- A trailing record packet the blocks-only loop accepts: well-formed,
the block return code in the command byte, and a payload of at least 10
bytes (so `Block` decoding cannot raise). -/
def GoodBlockRecord (pkt : List Nat) : Prop :=
  WellFormed pkt ∧ pkt.getD 4 0 = kCommandReturnBlock ∧ 16 ≤ pkt.length

instance (pkt : List Nat) : Decidable (GoodBlockRecord pkt) := by
  unfold GoodBlockRecord; infer_instance

/-- A trailing record packet the arrows-only loop accepts. -/
def GoodArrowRecord (pkt : List Nat) : Prop :=
  WellFormed pkt ∧ pkt.getD 4 0 = kCommandReturnArrow ∧ 16 ≤ pkt.length

instance (pkt : List Nat) : Decidable (GoodArrowRecord pkt) := by
  unfold GoodArrowRecord; infer_instance

/-- A trailing record packet the mixed loop accepts: well-formed, a
block or arrow return code, and a payload of at least 10 bytes. -/
def GoodMixedRecord (pkt : List Nat) : Prop :=
  WellFormed pkt ∧
    (pkt.getD 4 0 = kCommandReturnBlock ∨ pkt.getD 4 0 = kCommandReturnArrow) ∧
    16 ≤ pkt.length

instance (pkt : List Nat) : Decidable (GoodMixedRecord pkt) := by
  unfold GoodMixedRecord; infer_instance

/-- Source `_ReturnInfo`: the info envelope decoded from a response:
record count, learned-id count and frame number, each little-endian
16-bit from two payload bytes.  Python raises IndexError when the
payload is shorter than 6 bytes, modelled by `none`. -/
structure ReturnInfo where
  nBlocksAndArrows : Nat
  nIDs : Nat
  frameNumber : Nat
deriving DecidableEq, Repr

def mkReturnInfo (resp : Response) : Option ReturnInfo :=
  if 6 ≤ resp.data.length then
    some { nBlocksAndArrows := resp.data.getD 0 0 + resp.data.getD 1 0 * 256
           nIDs := resp.data.getD 2 0 + resp.data.getD 3 0 * 256
           frameNumber := resp.data.getD 4 0 + resp.data.getD 5 0 * 256 }
  else none

/-- Source `Block.__init__`: center, size and id, little-endian 16-bit
pairs from a 10-byte payload. -/
structure Block where
  xCenter : Nat
  yCenter : Nat
  width : Nat
  height : Nat
  id : Nat
deriving DecidableEq, Repr

def mkBlock (resp : Response) : Option Block :=
  if 10 ≤ resp.data.length then
    some { xCenter := resp.data.getD 0 0 + resp.data.getD 1 0 * 256
           yCenter := resp.data.getD 2 0 + resp.data.getD 3 0 * 256
           width := resp.data.getD 4 0 + resp.data.getD 5 0 * 256
           height := resp.data.getD 6 0 + resp.data.getD 7 0 * 256
           id := resp.data.getD 8 0 + resp.data.getD 9 0 * 256 }
  else none

/-- Source `Arrow.__init__`: origin, target and id, little-endian 16-bit
pairs from a 10-byte payload. -/
structure Arrow where
  xOrigin : Nat
  yOrigin : Nat
  xTarget : Nat
  yTarget : Nat
  id : Nat
deriving DecidableEq, Repr

def mkArrow (resp : Response) : Option Arrow :=
  if 10 ≤ resp.data.length then
    some { xOrigin := resp.data.getD 0 0 + resp.data.getD 1 0 * 256
           yOrigin := resp.data.getD 2 0 + resp.data.getD 3 0 * 256
           xTarget := resp.data.getD 4 0 + resp.data.getD 5 0 * 256
           yTarget := resp.data.getD 6 0 + resp.data.getD 7 0 * 256
           id := resp.data.getD 8 0 + resp.data.getD 9 0 * 256 }
  else none

/-- The driver fields mutated by the operations: result snapshots,
learned-id counter and the id-to-name dictionary.  The snapshots hold
`Option` entries because `_handle_response_blocks` and
`_handle_response_arrows` preallocate `[None] * n` and fill by index;
the dictionary is an ordered association list with last-write-wins
update, matching Python `dict` semantics for the operations used. -/
structure Session where
  blocks : List (Option Block)
  arrows : List (Option Arrow)
  nLearned : Nat
  idToName : List (Nat × String)
deriving DecidableEq, Repr

/-- The session state right after `__init__`. -/
def initSession : Session :=
  { blocks := [], arrows := [], nLearned := 0, idToName := [] }

/-- Python `d[k] = v` on the association list. -/
def dictSet (m : List (Nat × String)) (k : Nat) (v : String) :
    List (Nat × String) :=
  if (m.find? (fun p => p.1 == k)).isSome then
    m.map (fun p => if p.1 == k then (k, v) else p)
  else m ++ [(k, v)]

/-- Python `d[k] if k in d else None` on the association list. -/
def dictGet (m : List (Nat × String)) (k : Nat) : Option String :=
  (m.find? (fun p => p.1 == k)).map (fun p => p.2)

/-- The loop of `_handle_response_blocks`: read `n` more responses, each
of which must be valid with the block return code, and fill the
preallocated snapshot by index. -/
def handleBlocksLoop : Nat → Nat → Session → List Nat →
    Option (Bool × Session × List Nat)
  | 0, _, s, st => some (true, s, st)
  | n + 1, i, s, st =>
    match getResponse st with
    | none => none
    | some (r, rest) =>
      if ¬ r.valid ∨ r.command ≠ kCommandReturnBlock then some (false, s, rest)
      else
        match mkBlock r with
        | none => none
        | some b =>
          handleBlocksLoop n (i + 1) { s with blocks := s.blocks.set i (some b) } rest

/-- Source `_handle_response_blocks`: require a valid info envelope,
preallocate the block snapshot, update the learned-id count, then read
the declared number of block records. -/
def handleResponseBlocks (s : Session) (response : Response) (st : List Nat) :
    Option (Bool × Session × List Nat) :=
  if ¬ response.valid ∨ response.command ≠ kCommandReturnInfo then some (false, s, st)
  else
    match mkReturnInfo response with
    | none => none
    | some info =>
      handleBlocksLoop info.nBlocksAndArrows 0
        { s with blocks := List.replicate info.nBlocksAndArrows none
                 nLearned := info.nIDs } st

/-- The loop of `_handle_response_arrows`. -/
def handleArrowsLoop : Nat → Nat → Session → List Nat →
    Option (Bool × Session × List Nat)
  | 0, _, s, st => some (true, s, st)
  | n + 1, i, s, st =>
    match getResponse st with
    | none => none
    | some (r, rest) =>
      if ¬ r.valid ∨ r.command ≠ kCommandReturnArrow then some (false, s, rest)
      else
        match mkArrow r with
        | none => none
        | some a =>
          handleArrowsLoop n (i + 1) { s with arrows := s.arrows.set i (some a) } rest

/-- Source `_handle_response_arrows`. -/
def handleResponseArrows (s : Session) (response : Response) (st : List Nat) :
    Option (Bool × Session × List Nat) :=
  if ¬ response.valid ∨ response.command ≠ kCommandReturnInfo then some (false, s, st)
  else
    match mkReturnInfo response with
    | none => none
    | some info =>
      handleArrowsLoop info.nBlocksAndArrows 0
        { s with arrows := List.replicate info.nBlocksAndArrows none
                 nLearned := info.nIDs } st

/-- The loop of `_handle_response_mixed`: each trailing record must be
valid and is appended to the block or arrow snapshot by its command
code; any other command aborts. -/
def handleMixedLoop : Nat → Session → List Nat →
    Option (Bool × Session × List Nat)
  | 0, s, st => some (true, s, st)
  | n + 1, s, st =>
    match getResponse st with
    | none => none
    | some (r, rest) =>
      if ¬ r.valid then some (false, s, rest)
      else if r.command = kCommandReturnBlock then
        match mkBlock r with
        | none => none
        | some b => handleMixedLoop n { s with blocks := s.blocks ++ [some b] } rest
      else if r.command = kCommandReturnArrow then
        match mkArrow r with
        | none => none
        | some a => handleMixedLoop n { s with arrows := s.arrows ++ [some a] } rest
      else some (false, s, rest)

/-- Source `_handle_response_mixed`: require a valid info envelope,
clear both snapshots, update the learned-id count, then read the
declared number of mixed records. -/
def handleResponseMixed (s : Session) (response : Response) (st : List Nat) :
    Option (Bool × Session × List Nat) :=
  if ¬ response.valid ∨ response.command ≠ kCommandReturnInfo then some (false, s, st)
  else
    match mkReturnInfo response with
    | none => none
    | some info =>
      handleMixedLoop info.nBlocksAndArrows
        { s with blocks := []
                 arrows := []
                 nLearned := info.nIDs } st

/-- Source `request`: send the request-all command and aggregate the
mixed response.  The write side is deterministic, so the sent packet is
not threaded through the aggregation result here. -/
def request (s : Session) (st : List Nat) : Option (Bool × Session × List Nat) :=
  match getResponse st with
  | none => none
  | some (r, rest) => handleResponseMixed s r rest

/-- Source `request_blocks`. -/
def requestBlocks (s : Session) (st : List Nat) : Option (Bool × Session × List Nat) :=
  match getResponse st with
  | none => none
  | some (r, rest) => handleResponseBlocks s r rest

/-- Source `request_arrows`. -/
def requestArrows (s : Session) (st : List Nat) : Option (Bool × Session × List Nat) :=
  match getResponse st with
  | none => none
  | some (r, rest) => handleResponseArrows s r rest

/-- Source `request_knock`: send the knock command, then succeed only on
a valid response carrying the OK return code.  The result also carries
the packets written to the bus and the unread stream remainder. -/
def requestKnock (s : Session) (st : List Nat) :
    Option (Bool × Session × List (List Nat) × List Nat) :=
  match getResponse st with
  | none => none
  | some (r, rest) =>
    some (r.valid && (r.command == kCommandReturnOk), s,
      [sendCommandPkt kCommandRequestKnock []], rest)

/-- The enumerated algorithm set checked by `request_algorithm`. -/
def algorithmCodes : List Nat :=
  [kAlgorithmFaceRecognition, kAlgorithmObjectTracking, kAlgorithmObjectRecognition,
   kAlgorithmLineTracking, kAlgorithmColorRecognition, kAlgorithmTagRecognition,
   kAlgorithmObjectClassification]

/-- Source `request_algorithm`: an algorithm code outside the enumerated
set is rejected locally before any bus write; otherwise the command is
sent with the 16-bit code split low byte first, and the result is a
valid OK response. -/
def requestAlgorithm (s : Session) (algorithm : Nat) (st : List Nat) :
    Option (Bool × Session × List (List Nat) × List Nat) :=
  if algorithm ∉ algorithmCodes then some (false, s, [], st)
  else
    match getResponse st with
    | none => none
    | some (r, rest) =>
      some (r.valid && (r.command == kCommandReturnOk), s,
        [sendCommandPkt kCommandRequestAlgorithm [algorithm % 256, algorithm / 256]],
        rest)

/-- Source `set_algorithm`: delegates to `request_algorithm`. -/
def setAlgorithm (s : Session) (algorithm : Nat) (st : List Nat) :
    Option (Bool × Session × List (List Nat) × List Nat) :=
  requestAlgorithm s algorithm st

/-- Source `request_is_pro`: send the model-tier query; fail on an
invalid response or one without the is-pro return code, else report
whether the first payload byte is 1. -/
def requestIsPro (s : Session) (st : List Nat) :
    Option (Bool × Session × List (List Nat) × List Nat) :=
  match getResponse st with
  | none => none
  | some (r, rest) =>
    if ¬ r.valid ∨ r.command ≠ kCommandReturnIsPro then
      some (false, s, [sendCommandPkt kCommandRequestIsPro []], rest)
    else
      match r.data with
      | [] => none
      | d0 :: _ => some (d0 == 1, s, [sendCommandPkt kCommandRequestIsPro []], rest)

/-- Source `request_forget`: reset the learned-id count and clear the
name dictionary in the same call that sends the forget command; no
response is read. -/
def requestForget (s : Session) : Session × List (List Nat) :=
  ({ s with nLearned := 0, idToName := [] },
   [sendCommandPkt kCommandRequestForget []])

/-- Source `forget`: delegates to `request_forget`. -/
def forget (s : Session) : Session × List (List Nat) :=
  requestForget s

/-- Source `request_custom_names`: send the naming command with payload
id, name length + 1, the name bytes and a zero terminator, and record
the association locally; no response is read. -/
def requestCustomNames (s : Session) (id : Nat) (name : String) :
    Session × List (List Nat) :=
  ({ s with idToName := dictSet s.idToName id name },
   [sendCommandPkt kCommandRequestCustomNames
      ([id, name.length + 1] ++ (name.data.map Char.toNat) ++ [0])])

/-- Source `get_name_for_id`: local dictionary lookup only; `none` when
the id was never named. -/
def getNameForId (s : Session) (id : Nat) : Option String :=
  dictGet s.idToName id

/-- Decoding a packet given in the explicit header/payload/checksum shape. -/
theorem decodeResponse_concat (b0 b1 b2 b3 b4 c : Nat) (mid : List Nat) :
    decodeResponse (b0 :: b1 :: b2 :: b3 :: b4 :: (mid ++ [c])) =
      some { header := b0
             header2 := b1
             address := b2
             dlen := b3
             command := b4
             data := mid
             chk := c
             valid := c == (b0 :: b1 :: b2 :: b3 :: b4 :: mid).sum % 256 } := by
  have hrw : b0 :: b1 :: b2 :: b3 :: b4 :: (mid ++ [c]) =
      (b0 :: b1 :: b2 :: b3 :: b4 :: mid) ++ [c] := by simp
  have h1 : (b4 :: (mid ++ [c])).getLast?.getD 0 = c := by
    rw [show b4 :: (mid ++ [c]) = (b4 :: mid) ++ [c] by simp, List.getLast?_concat]
    rfl
  have h2 : (b0 :: b1 :: b2 :: b3 :: b4 :: (mid ++ [c])).dropLast =
      b0 :: b1 :: b2 :: b3 :: b4 :: mid := by
    rw [hrw, List.dropLast_concat]
  rw [decodeResponse, if_pos (by simp)]
  simp [h1, h2, List.dropLast_concat]

theorem sendCommandPkt_eq (command : Nat) (data : List Nat) :
    sendCommandPkt command data =
      0x55 :: 0xAA :: 0x11 :: data.length :: command ::
        (data ++ [(0x55 :: 0xAA :: 0x11 :: data.length :: command :: data).sum % 256]) := by
  simp [sendCommandPkt, checksum]

theorem decodeResponse_sendCommandPkt (command : Nat) (data : List Nat) :
    decodeResponse (sendCommandPkt command data) =
      some { header := 0x55
             header2 := 0xAA
             address := 0x11
             dlen := data.length
             command := command
             data := data
             chk := (0x55 :: 0xAA :: 0x11 :: data.length :: command :: data).sum % 256
             valid := true } := by
  rw [sendCommandPkt_eq, decodeResponse_concat]
  simp

theorem isFrame_shape {pkt : List Nat} (h : IsFrame pkt) :
    ∃ b1 b2 b4 c, ∃ mid : List Nat,
      pkt = 0x55 :: b1 :: b2 :: mid.length :: b4 :: (mid ++ [c]) := by
  obtain ⟨hhead, hlen⟩ := h
  rcases pkt with _ | ⟨a0, _ | ⟨a1, _ | ⟨a2, _ | ⟨a3, _ | ⟨a4, rest⟩⟩⟩⟩⟩ <;>
      simp [List.getD] at hhead hlen <;>
    try omega
  rcases List.eq_nil_or_concat rest with rfl | ⟨mid, c, rfl⟩
  · exfalso
    simp at hlen
    omega
  · subst hhead
    have hm : a3 = mid.length := by
      simp at hlen
      omega
    refine ⟨a1, a2, a4, c, mid, ?_⟩
    rw [hm]
    simp

theorem decode_shape (b1 b2 b4 c : Nat) (mid : List Nat) :
    decodeResponse (0x55 :: b1 :: b2 :: mid.length :: b4 :: (mid ++ [c])) =
      some { header := 0x55
             header2 := b1
             address := b2
             dlen := mid.length
             command := b4
             data := mid
             chk := c
             valid :=
               c == (0x55 :: b1 :: b2 :: mid.length :: b4 :: mid).sum % 256 } :=
  decodeResponse_concat 0x55 b1 b2 mid.length b4 c mid

/-- The checksum invariant, read off the explicit packet shape. -/
theorem checksumOk_shape (b1 b2 b4 c : Nat) (mid : List Nat) :
    ChecksumOk (0x55 :: b1 :: b2 :: mid.length :: b4 :: (mid ++ [c])) ↔
      c = (0x55 :: b1 :: b2 :: mid.length :: b4 :: mid).sum % 256 := by
  have hrw : 0x55 :: b1 :: b2 :: mid.length :: b4 :: (mid ++ [c]) =
      (0x55 :: b1 :: b2 :: mid.length :: b4 :: mid) ++ [c] := by simp
  rw [ChecksumOk, hrw, List.getLastD_concat, List.dropLast_concat]

/-- Reading from a stream that begins with a frame-shaped packet consumes
exactly that packet and decodes it. -/
theorem getResponse_frame {pkt : List Nat} (hf : IsFrame pkt) (rest : List Nat) :
    ∃ r, decodeResponse pkt = some r ∧ getResponse (pkt ++ rest) = some (r, rest) := by
  obtain ⟨b1, b2, b4, c, mid, rfl⟩ := isFrame_shape hf
  refine ⟨_, decode_shape b1 b2 b4 c mid, ?_⟩
  have hstream : (0x55 :: b1 :: b2 :: mid.length :: b4 :: (mid ++ [c])) ++ rest =
      0x55 :: ([b1, b2, mid.length, b4] ++ ((mid ++ [c]) ++ rest)) := by
    simp
  rw [hstream, getResponse]
  have hdw : (0x55 :: ([b1, b2, mid.length, b4] ++ ((mid ++ [c]) ++ rest))).dropWhile
      (fun b => b != 0x55) =
      0x55 :: ([b1, b2, mid.length, b4] ++ ((mid ++ [c]) ++ rest)) := by
    rw [List.dropWhile_cons]
    simp
  rw [hdw]
  have htake4 : ([b1, b2, mid.length, b4] ++ ((mid ++ [c]) ++ rest)).take 4 =
      [b1, b2, mid.length, b4] := List.take_left' (by simp)
  have hdrop4 : ([b1, b2, mid.length, b4] ++ ((mid ++ [c]) ++ rest)).drop 4 =
      (mid ++ [c]) ++ rest := List.drop_left' (by simp)
  have hlen4 : 4 ≤ ([b1, b2, mid.length, b4] ++ ((mid ++ [c]) ++ rest)).length := by
    simp
  have hgd : ([b1, b2, mid.length, b4] : List Nat).getD 2 0 = mid.length := rfl
  have htakeL : ((mid ++ [c]) ++ rest).take (mid.length + 1) = mid ++ [c] :=
    List.take_left' (by simp)
  have hdropL : ((mid ++ [c]) ++ rest).drop (mid.length + 1) = rest :=
    List.drop_left' (by simp)
  have hbytes : (0x55 :: ([b1, b2, mid.length, b4] ++ (mid ++ [c]))) =
      0x55 :: b1 :: b2 :: mid.length :: b4 :: (mid ++ [c]) := by simp
  simp only [readFrame, htake4, hdrop4, hgd, htakeL, hdropL, hbytes,
    if_pos hlen4, if_pos (by simp : mid.length + 1 ≤ ((mid ++ [c]) ++ rest).length),
    decode_shape]

/-- Reading from garbage (none of it the sentinel) leaves the read
result unchanged: the resynchronization loop discards it. -/
theorem getResponse_garbage {garbage : List Nat}
    (hg : ∀ b ∈ garbage, b ≠ 0x55) (tail : List Nat) :
    getResponse (garbage ++ tail) = getResponse tail := by
  rw [getResponse, getResponse, List.dropWhile_append_of_pos]
  intro a ha
  simpa using hg a ha

/-- C2: a single read on a stream of non-sentinel garbage followed by a
well-formed packet consumes exactly the garbage plus the packet and
returns the packet decoded unchanged, with a true valid flag. -/
theorem resync_reads_packet_unchanged {garbage pkt : List Nat} (rest : List Nat)
    {r : Response}
    (hg : ∀ b ∈ garbage, b ≠ 0x55)
    (hf : IsFrame pkt) (hc : ChecksumOk pkt)
    (hr : decodeResponse pkt = some r) :
    getResponse (garbage ++ (pkt ++ rest)) = some (r, rest) ∧ r.valid = true := by
  constructor
  · obtain ⟨r', hr', hget⟩ := getResponse_frame hf rest
    rw [hr] at hr'
    injection hr' with h2
    rw [getResponse_garbage hg, hget, h2]
  · obtain ⟨b1, b2, b4, c, mid, hpkt⟩ := isFrame_shape hf
    subst hpkt
    rw [decode_shape] at hr
    injection hr with h3
    rw [← h3]
    have hcs : c = (0x55 :: b1 :: b2 :: mid.length :: b4 :: mid).sum % 256 :=
      (checksumOk_shape b1 b2 b4 c mid).mp hc
    simp [hcs]

/-- C2 witness: three garbage bytes before a knock-acknowledge frame. -/
theorem resync_reads_packet_unchanged_witness :
    getResponse ([1, 2, 3] ++ ([85, 170, 17, 0, 44, 60] ++ [99])) =
      some (⟨85, 170, 17, 0, 44, [], 60, true⟩, [99]) ∧
    (⟨85, 170, 17, 0, 44, [], 60, true⟩ : Response).valid = true :=
  @resync_reads_packet_unchanged [1, 2, 3] [85, 170, 17, 0, 44, 60] [99]
    ⟨85, 170, 17, 0, 44, [], 60, true⟩
    (by decide) (by decide) (by decide) (by decide)

/-- Replacing one list entry changes the sum by the difference of values. -/
theorem sum_set_add (l : List Nat) (i v : Nat) (h : i < l.length) :
    (l.set i v).sum + l.getD i 0 = l.sum + v := by
  induction l generalizing i with
  | nil => simp at h
  | cons a t ih =>
    cases i with
    | zero =>
      simp
      omega
    | succ j =>
      have hj : j < t.length := by simpa using h
      have := ih j hj
      simp at this ⊢
      omega

/-- Decoding any packet presented as body plus final checksum byte. -/
theorem decode_concat_valid (front : List Nat) (c : Nat) (h4 : 4 ≤ front.length) :
    ∃ r, decodeResponse (front ++ [c]) = some r ∧
      r.valid = (c == front.sum % 256) := by
  rw [decodeResponse, if_pos (by simp; omega)]
  refine ⟨_, rfl, ?_⟩
  simp [List.getLastD_concat, List.dropLast_concat]

/-- C3: changing one byte of a valid packet, other than the final
checksum byte, to any different byte value makes the decoder clear the
valid flag. -/
theorem corrupt_nonchecksum_invalidates {pkt : List Nat} {i v : Nat} {r r2 : Response}
    (hr : decodeResponse pkt = some r) (hvalid : r.valid = true)
    (hi : i < pkt.length - 1)
    (hb : pkt.getD i 0 < 256) (hv : v < 256) (hne : v ≠ pkt.getD i 0)
    (hr2 : decodeResponse (pkt.set i v) = some r2) :
    r2.valid = false := by
  have h5 : 5 ≤ pkt.length := by
    by_contra h
    rw [decodeResponse, if_neg h] at hr
    cases hr
  rcases List.eq_nil_or_concat pkt with rfl | ⟨front, c, rfl⟩
  · simp at h5
  · simp only [List.concat_eq_append] at hr hi hb hne hr2 h5
    have hif : i < front.length := by
      simp at hi
      exact hi
    have h4 : 4 ≤ front.length := by
      simp at h5
      omega
    obtain ⟨ra, hra, hvala⟩ := decode_concat_valid front c h4
    rw [hra] at hr
    injection hr with hr
    subst hr
    rw [hvala] at hvalid
    have hc : c = front.sum % 256 := eq_of_beq hvalid
    have hset : (front ++ [c]).set i v = front.set i v ++ [c] :=
      List.set_append_left i v hif
    have h4b : 4 ≤ (front.set i v).length := by
      simp [h4]
    obtain ⟨rb, hrb, hvalb⟩ := decode_concat_valid (front.set i v) c h4b
    rw [hset, hrb] at hr2
    injection hr2 with hr2
    subst hr2
    rw [hvalb]
    have hw : (front ++ [c]).getD i 0 = front.getD i 0 :=
      List.getD_append front [c] 0 i hif
    rw [hw] at hb hne
    have hsum := sum_set_add front i v hif
    have hne2 : c ≠ (front.set i v).sum % 256 := by
      intro hceq
      omega
    simp [hne2]

/-- C3 witness: corrupt the command byte of a valid knock-acknowledge
packet while keeping its checksum. -/
theorem corrupt_nonchecksum_invalidates_witness :
    decodeResponse ([85, 170, 17, 0, 44, 60].set 4 45) =
      some ⟨85, 170, 17, 0, 45, [], 60, false⟩ ∧
    (⟨85, 170, 17, 0, 45, [], 60, false⟩ : Response).valid = false :=
  ⟨by decide,
    @corrupt_nonchecksum_invalidates [85, 170, 17, 0, 44, 60] 4 45
      ⟨85, 170, 17, 0, 44, [], 60, true⟩ ⟨85, 170, 17, 0, 45, [], 60, false⟩
      (by decide) (by decide) (by decide) (by decide) (by decide) (by decide)
      (by decide)⟩

/-- C1: decoding the packet built by the send-side encoder yields a valid
packet whose command and payload equal the originals and whose checksum
byte is the sum of all preceding packet bytes mod 256. -/
theorem roundtrip_encode_decode (command : Nat) (data : List Nat) :
    ∃ r : Response,
      decodeResponse (sendCommandPkt command data) = some r ∧
      r.valid = true ∧
      r.command = command ∧
      r.data = data ∧
      r.chk = (sendCommandPkt command data).dropLast.sum % 256 := by
  refine ⟨_, decodeResponse_sendCommandPkt command data, rfl, rfl, rfl, ?_⟩
  show (0x55 :: 0xAA :: 0x11 :: data.length :: command :: data).sum % 256 =
    (sendCommandPkt command data).dropLast.sum % 256
  rw [sendCommandPkt]
  rw [List.dropLast_concat]
  rfl


/-- Helper: a well-formed packet decodes with the valid flag set. -/
theorem decode_valid_of_wellFormed {pkt : List Nat} {r : Response}
    (hf : IsFrame pkt) (hc : ChecksumOk pkt)
    (hr : decodeResponse pkt = some r) : r.valid = true := by
  obtain ⟨b1, b2, b4, c, mid, hpkt⟩ := isFrame_shape hf
  subst hpkt
  rw [decode_shape] at hr
  injection hr with h3
  rw [← h3]
  have hcs := (checksumOk_shape b1 b2 b4 c mid).mp hc
  simp [hcs]

/-- Helper: reading a stream headed by a frame yields its known decode. -/
theorem getResponse_of_decode {pkt : List Nat} {r : Response} (hf : IsFrame pkt)
    (hr : decodeResponse pkt = some r) (rest : List Nat) :
    getResponse (pkt ++ rest) = some (r, rest) := by
  obtain ⟨r2, hr2, hget⟩ := getResponse_frame hf rest
  rw [hr] at hr2
  injection hr2 with h
  rw [hget, h]

/-- Replacing the entry for a present key keeps it findable with the new
value. -/
theorem find?_map_replace (m : List (Nat × String)) (k : Nat) (v : String)
    (h : (m.find? (fun p => p.1 == k)).isSome = true) :
    (m.map (fun p => if p.1 == k then (k, v) else p)).find? (fun p => p.1 == k) =
      some (k, v) := by
  induction m with
  | nil => simp at h
  | cons p t ih =>
    by_cases hp : p.1 = k
    · rw [List.map_cons, if_pos (by simp [hp])]
      exact List.find?_cons_of_pos _ (by simp)
    · rw [List.map_cons, if_neg (by simp [hp])]
      rw [List.find?_cons_of_neg _ (by simp [hp])]
      rw [List.find?_cons_of_neg _ (by simp [hp])] at h
      exact ih h

/-- Appending a fresh binding makes it the one found. -/
theorem find?_append_absent (k : Nat) (v : String) :
    ∀ m : List (Nat × String), m.find? (fun p => p.1 == k) = none →
      (m ++ [(k, v)]).find? (fun p => p.1 == k) = some (k, v) := by
  intro m
  induction m with
  | nil =>
    intro _
    exact List.find?_cons_of_pos _ (by simp)
  | cons p t ih =>
    intro hnone
    have hp : (p.1 == k) = false := by
      by_contra hcon
      rw [List.find?_cons_of_pos _ (by simpa using hcon)] at hnone
      cases hnone
    rw [List.find?_cons_of_neg _ (by simp [hp])] at hnone
    rw [List.cons_append, List.find?_cons_of_neg _ (by simp [hp])]
    exact ih hnone

/-- Setting a key makes lookup return the new value. -/
theorem dictGet_dictSet (m : List (Nat × String)) (k : Nat) (v : String) :
    dictGet (dictSet m k v) k = some v := by
  rw [dictSet]
  by_cases h : (m.find? (fun p => p.1 == k)).isSome
  · rw [if_pos h, dictGet, find?_map_replace m k v h]
    rfl
  · rw [if_neg h, dictGet]
    have hnone : m.find? (fun p => p.1 == k) = none := by
      cases hf : m.find? (fun p => p.1 == k)
      · rfl
      · rw [hf] at h
        simp at h
    rw [find?_append_absent k v m hnone]
    rfl

/-- A key bound to no entry looks up to `none`. -/
theorem dictGet_eq_none {m : List (Nat × String)} {k : Nat}
    (h : ∀ p ∈ m, p.1 ≠ k) : dictGet m k = none := by
  rw [dictGet]
  have hfind : m.find? (fun p => p.1 == k) = none := by
    rw [List.find?_eq_none]
    intro p hp
    simp [h p hp]
  rw [hfind]
  rfl

/-- C8: after `request_custom_names(id, name)` the local lookup for that
id returns the name (last write wins, since the dictionary write
replaces any previous binding), independently of any device response;
an id never named looks up to `none`. -/
theorem naming_roundtrip (s s2 : Session) (id id2 : Nat) (name : String)
    (h : ∀ p ∈ s2.idToName, p.1 ≠ id2) :
    getNameForId (requestCustomNames s id name).1 id = some name ∧
    getNameForId s2 id2 = none :=
  ⟨dictGet_dictSet s.idToName id name, dictGet_eq_none h⟩

/-- C8 witness: name id 1 in a fresh session and look it up; id 2 was
never named. -/
theorem naming_roundtrip_witness :
    getNameForId (requestCustomNames initSession 1 "X").1 1 = some "X" ∧
    getNameForId initSession 2 = none :=
  naming_roundtrip initSession initSession 1 2 "X" (by simp [initSession])

/-- C7: forget resets the learned-id count and clears the name mapping
together in the same local update, with no acknowledgment read. -/
theorem forget_clears_state (s : Session) :
    (forget s).1.nLearned = 0 ∧ (forget s).1.idToName = [] :=
  ⟨rfl, rfl⟩

/-- C6: an algorithm code outside the enumerated seven-element set makes
both request_algorithm and set_algorithm return failure with no bus
write, an unchanged session and an untouched stream. -/
theorem unknown_algorithm_no_write (s : Session) (algorithm : Nat) (st : List Nat)
    (h : algorithm ∉ algorithmCodes) :
    requestAlgorithm s algorithm st = some (false, s, [], st) ∧
    setAlgorithm s algorithm st = some (false, s, [], st) := by
  constructor <;>
    simp [setAlgorithm, requestAlgorithm, h]

/-- C6 witness: code 7 is outside the enumerated set. -/
theorem unknown_algorithm_no_write_witness :
    requestAlgorithm initSession 7 [9] = some (false, initSession, [], [9]) ∧
    setAlgorithm initSession 7 [9] = some (false, initSession, [], [9]) :=
  unknown_algorithm_no_write initSession 7 [9] (by decide)


/-- One mixed-loop step on a well-formed block record. -/
theorem handleMixedLoop_block_step {pkt : List Nat} {r : Response} {b : Block}
    (hf : IsFrame pkt) (hc : ChecksumOk pkt) (hdec : decodeResponse pkt = some r)
    (hcmd : r.command = kCommandReturnBlock) (hmk : mkBlock r = some b)
    (n : Nat) (s : Session) (tail : List Nat) :
    handleMixedLoop (n + 1) s (pkt ++ tail) =
      handleMixedLoop n { s with blocks := s.blocks ++ [some b] } tail := by
  have hv := decode_valid_of_wellFormed hf hc hdec
  simp only [handleMixedLoop, getResponse_of_decode hf hdec tail]
  simp [hv, hcmd, hmk]

/-- One mixed-loop step on a well-formed arrow record. -/
theorem handleMixedLoop_arrow_step {pkt : List Nat} {r : Response} {a : Arrow}
    (hf : IsFrame pkt) (hc : ChecksumOk pkt) (hdec : decodeResponse pkt = some r)
    (hcmd : r.command = kCommandReturnArrow) (hmk : mkArrow r = some a)
    (n : Nat) (s : Session) (tail : List Nat) :
    handleMixedLoop (n + 1) s (pkt ++ tail) =
      handleMixedLoop n { s with arrows := s.arrows ++ [some a] } tail := by
  have hv := decode_valid_of_wellFormed hf hc hdec
  simp only [handleMixedLoop, getResponse_of_decode hf hdec tail]
  simp [hv, hcmd, hmk, kCommandReturnArrow, kCommandReturnBlock]

/-- The mixed loop aborts on an invalid record or on a record whose
command is neither the block nor the arrow return code. -/
theorem handleMixedLoop_abort_step {pkt : List Nat} {r : Response}
    (hf : IsFrame pkt) (hdec : decodeResponse pkt = some r)
    (hbad : r.valid = false ∨
      (r.command ≠ kCommandReturnBlock ∧ r.command ≠ kCommandReturnArrow))
    (n : Nat) (s : Session) (tail : List Nat) :
    handleMixedLoop (n + 1) s (pkt ++ tail) = some (false, s, tail) := by
  simp only [handleMixedLoop, getResponse_of_decode hf hdec tail]
  rcases hbad with h | ⟨h1, h2⟩
  · simp [h]
  · by_cases hv : r.valid = true
    · simp [hv, h1, h2]
    · simp [hv]

/-- One blocks-loop step on a well-formed block record. -/
theorem handleBlocksLoop_step {pkt : List Nat} {r : Response} {b : Block}
    (hf : IsFrame pkt) (hc : ChecksumOk pkt) (hdec : decodeResponse pkt = some r)
    (hcmd : r.command = kCommandReturnBlock) (hmk : mkBlock r = some b)
    (n i : Nat) (s : Session) (tail : List Nat) :
    handleBlocksLoop (n + 1) i s (pkt ++ tail) =
      handleBlocksLoop n (i + 1) { s with blocks := s.blocks.set i (some b) } tail := by
  have hv := decode_valid_of_wellFormed hf hc hdec
  simp only [handleBlocksLoop, getResponse_of_decode hf hdec tail]
  simp [hv, hcmd, hmk]

/-- The blocks loop aborts on an invalid record or on one whose command
is not the block return code. -/
theorem handleBlocksLoop_abort_step {pkt : List Nat} {r : Response}
    (hf : IsFrame pkt) (hdec : decodeResponse pkt = some r)
    (hbad : r.valid = false ∨ r.command ≠ kCommandReturnBlock)
    (n i : Nat) (s : Session) (tail : List Nat) :
    handleBlocksLoop (n + 1) i s (pkt ++ tail) = some (false, s, tail) := by
  simp only [handleBlocksLoop, getResponse_of_decode hf hdec tail]
  rcases hbad with h | h
  · simp [h]
  · rw [if_pos (Or.inr h)]

/-- One arrows-loop step on a well-formed arrow record. -/
theorem handleArrowsLoop_step {pkt : List Nat} {r : Response} {a : Arrow}
    (hf : IsFrame pkt) (hc : ChecksumOk pkt) (hdec : decodeResponse pkt = some r)
    (hcmd : r.command = kCommandReturnArrow) (hmk : mkArrow r = some a)
    (n i : Nat) (s : Session) (tail : List Nat) :
    handleArrowsLoop (n + 1) i s (pkt ++ tail) =
      handleArrowsLoop n (i + 1) { s with arrows := s.arrows.set i (some a) } tail := by
  have hv := decode_valid_of_wellFormed hf hc hdec
  simp only [handleArrowsLoop, getResponse_of_decode hf hdec tail]
  simp [hv, hcmd, hmk]

/-- The arrows loop aborts on an invalid record or on one whose command
is not the arrow return code. -/
theorem handleArrowsLoop_abort_step {pkt : List Nat} {r : Response}
    (hf : IsFrame pkt) (hdec : decodeResponse pkt = some r)
    (hbad : r.valid = false ∨ r.command ≠ kCommandReturnArrow)
    (n i : Nat) (s : Session) (tail : List Nat) :
    handleArrowsLoop (n + 1) i s (pkt ++ tail) = some (false, s, tail) := by
  simp only [handleArrowsLoop, getResponse_of_decode hf hdec tail]
  rcases hbad with h | h
  · simp [h]
  · rw [if_pos (Or.inr h)]

/-- A mixed fetch consumes a well-formed info envelope and enters the
record loop with cleared snapshots and the new learned-id count. -/
theorem request_envelope {e : List Nat} {re : Response}
    (hew : WellFormed e) (hed : decodeResponse e = some re)
    (hec : re.command = kCommandReturnInfo) (helen : 6 ≤ re.data.length)
    (s : Session) (tail : List Nat) :
    request s (e ++ tail) =
      handleMixedLoop (re.data.getD 0 0 + re.data.getD 1 0 * 256)
        { s with blocks := []
                 arrows := []
                 nLearned := re.data.getD 2 0 + re.data.getD 3 0 * 256 } tail := by
  have hev := decode_valid_of_wellFormed hew.1 hew.2 hed
  have hinfo : mkReturnInfo re = some
      ⟨re.data.getD 0 0 + re.data.getD 1 0 * 256,
       re.data.getD 2 0 + re.data.getD 3 0 * 256,
       re.data.getD 4 0 + re.data.getD 5 0 * 256⟩ := by
    rw [mkReturnInfo, if_pos helen]
  simp only [request, getResponse_of_decode hew.1 hed]
  simp only [handleResponseMixed]
  rw [if_neg (by simp [hev, hec]), hinfo]

/-- A blocks fetch consumes a well-formed info envelope and enters the
record loop with a preallocated snapshot and the new learned-id count. -/
theorem requestBlocks_envelope {e : List Nat} {re : Response}
    (hew : WellFormed e) (hed : decodeResponse e = some re)
    (hec : re.command = kCommandReturnInfo) (helen : 6 ≤ re.data.length)
    (s : Session) (tail : List Nat) :
    requestBlocks s (e ++ tail) =
      handleBlocksLoop (re.data.getD 0 0 + re.data.getD 1 0 * 256) 0
        { s with blocks :=
                   List.replicate (re.data.getD 0 0 + re.data.getD 1 0 * 256) none
                 nLearned := re.data.getD 2 0 + re.data.getD 3 0 * 256 } tail := by
  have hev := decode_valid_of_wellFormed hew.1 hew.2 hed
  have hinfo : mkReturnInfo re = some
      ⟨re.data.getD 0 0 + re.data.getD 1 0 * 256,
       re.data.getD 2 0 + re.data.getD 3 0 * 256,
       re.data.getD 4 0 + re.data.getD 5 0 * 256⟩ := by
    rw [mkReturnInfo, if_pos helen]
  simp only [requestBlocks, getResponse_of_decode hew.1 hed]
  simp only [handleResponseBlocks]
  rw [if_neg (by simp [hev, hec]), hinfo]

/-- An arrows fetch consumes a well-formed info envelope and enters the
record loop with a preallocated snapshot and the new learned-id count. -/
theorem requestArrows_envelope {e : List Nat} {re : Response}
    (hew : WellFormed e) (hed : decodeResponse e = some re)
    (hec : re.command = kCommandReturnInfo) (helen : 6 ≤ re.data.length)
    (s : Session) (tail : List Nat) :
    requestArrows s (e ++ tail) =
      handleArrowsLoop (re.data.getD 0 0 + re.data.getD 1 0 * 256) 0
        { s with arrows :=
                   List.replicate (re.data.getD 0 0 + re.data.getD 1 0 * 256) none
                 nLearned := re.data.getD 2 0 + re.data.getD 3 0 * 256 } tail := by
  have hev := decode_valid_of_wellFormed hew.1 hew.2 hed
  have hinfo : mkReturnInfo re = some
      ⟨re.data.getD 0 0 + re.data.getD 1 0 * 256,
       re.data.getD 2 0 + re.data.getD 3 0 * 256,
       re.data.getD 4 0 + re.data.getD 5 0 * 256⟩ := by
    rw [mkReturnInfo, if_pos helen]
  simp only [requestArrows, getResponse_of_decode hew.1 hed]
  simp only [handleResponseArrows]
  rw [if_neg (by simp [hev, hec]), hinfo]

/-- C4: a mixed fetch whose stream is an info envelope declaring three
records, then one arrow record and two block records (all well-formed),
succeeds, replaces the arrow snapshot with exactly that arrow and the
block snapshot with exactly those two blocks in arrival order, and sets
the learned-id count from the envelope. -/
theorem mixed_fetch_one_arrow_two_blocks
    (s : Session) (e a b1 b2 rest : List Nat)
    (re ra rb1 rb2 : Response) (arr : Arrow) (bl1 bl2 : Block)
    (hew : WellFormed e) (hed : decodeResponse e = some re)
    (hec : re.command = kCommandReturnInfo) (helen : 6 ≤ re.data.length)
    (hcount : re.data.getD 0 0 + re.data.getD 1 0 * 256 = 3)
    (haw : WellFormed a) (had : decodeResponse a = some ra)
    (hac : ra.command = kCommandReturnArrow) (hamk : mkArrow ra = some arr)
    (hb1w : WellFormed b1) (hb1d : decodeResponse b1 = some rb1)
    (hb1c : rb1.command = kCommandReturnBlock) (hb1mk : mkBlock rb1 = some bl1)
    (hb2w : WellFormed b2) (hb2d : decodeResponse b2 = some rb2)
    (hb2c : rb2.command = kCommandReturnBlock) (hb2mk : mkBlock rb2 = some bl2) :
    request s (e ++ (a ++ (b1 ++ (b2 ++ rest)))) =
      some (true,
        { blocks := [some bl1, some bl2]
          arrows := [some arr]
          nLearned := re.data.getD 2 0 + re.data.getD 3 0 * 256
          idToName := s.idToName }, rest) := by
  rw [request_envelope hew hed hec helen s (a ++ (b1 ++ (b2 ++ rest))), hcount]
  rw [(by norm_num : (3 : Nat) = 2 + 1)]
  rw [handleMixedLoop_arrow_step haw.1 haw.2 had hac hamk]
  rw [(by norm_num : (2 : Nat) = 1 + 1)]
  rw [handleMixedLoop_block_step hb1w.1 hb1w.2 hb1d hb1c hb1mk]
  rw [(by norm_num : (1 : Nat) = 0 + 1)]
  rw [handleMixedLoop_block_step hb2w.1 hb2w.2 hb2d hb2c hb2mk]
  simp only [handleMixedLoop]
  simp

/-- C4 witness: a concrete envelope declaring 3 records and 5 learned
ids, one arrow record, two block records. -/
theorem mixed_fetch_one_arrow_two_blocks_witness :
    request initSession
        ([85, 170, 17, 6, 41, 3, 0, 5, 0, 7, 0, 78] ++
          ([85, 170, 17, 10, 43, 1, 0, 2, 0, 3, 0, 4, 0, 9, 0, 88] ++
            ([85, 170, 17, 10, 42, 10, 0, 20, 0, 30, 0, 40, 0, 9, 0, 177] ++
              ([85, 170, 17, 10, 42, 11, 0, 21, 0, 31, 0, 41, 0, 8, 0, 180] ++ [])))) =
      some (true,
        { blocks := [some ⟨10, 20, 30, 40, 9⟩, some ⟨11, 21, 31, 41, 8⟩]
          arrows := [some ⟨1, 2, 3, 4, 9⟩]
          nLearned := 5
          idToName := [] }, []) :=
  mixed_fetch_one_arrow_two_blocks initSession
    [85, 170, 17, 6, 41, 3, 0, 5, 0, 7, 0, 78]
    [85, 170, 17, 10, 43, 1, 0, 2, 0, 3, 0, 4, 0, 9, 0, 88]
    [85, 170, 17, 10, 42, 10, 0, 20, 0, 30, 0, 40, 0, 9, 0, 177]
    [85, 170, 17, 10, 42, 11, 0, 21, 0, 31, 0, 41, 0, 8, 0, 180]
    []
    ⟨85, 170, 17, 6, 41, [3, 0, 5, 0, 7, 0], 78, true⟩
    ⟨85, 170, 17, 10, 43, [1, 0, 2, 0, 3, 0, 4, 0, 9, 0], 88, true⟩
    ⟨85, 170, 17, 10, 42, [10, 0, 20, 0, 30, 0, 40, 0, 9, 0], 177, true⟩
    ⟨85, 170, 17, 10, 42, [11, 0, 21, 0, 31, 0, 41, 0, 8, 0], 180, true⟩
    ⟨1, 2, 3, 4, 9⟩ ⟨10, 20, 30, 40, 9⟩ ⟨11, 21, 31, 41, 8⟩
    (by decide) (by decide) (by decide) (by decide) (by decide)
    (by decide) (by decide) (by decide) (by decide)
    (by decide) (by decide) (by decide) (by decide)
    (by decide) (by decide) (by decide) (by decide)


/-- Unpacking a good block record into its decode facts. -/
theorem goodBlockRecord_elim {pkt : List Nat} (h : GoodBlockRecord pkt) :
    ∃ r b, decodeResponse pkt = some r ∧ r.command = kCommandReturnBlock ∧
      mkBlock r = some b := by
  obtain ⟨hw, hcmd, hlen⟩ := h
  obtain ⟨b1, b2, b4, c, mid, hpkt⟩ := isFrame_shape hw.1
  subst hpkt
  have hdlen : 10 ≤ mid.length := by
    simp at hlen
    omega
  have hcmd4 : b4 = kCommandReturnBlock := by simpa using hcmd
  refine ⟨_, ⟨mid.getD 0 0 + mid.getD 1 0 * 256, mid.getD 2 0 + mid.getD 3 0 * 256,
      mid.getD 4 0 + mid.getD 5 0 * 256, mid.getD 6 0 + mid.getD 7 0 * 256,
      mid.getD 8 0 + mid.getD 9 0 * 256⟩,
    decode_shape b1 b2 b4 c mid, hcmd4, ?_⟩
  simp only [mkBlock]
  rw [if_pos hdlen]

/-- Unpacking a good arrow record into its decode facts. -/
theorem goodArrowRecord_elim {pkt : List Nat} (h : GoodArrowRecord pkt) :
    ∃ r a, decodeResponse pkt = some r ∧ r.command = kCommandReturnArrow ∧
      mkArrow r = some a := by
  obtain ⟨hw, hcmd, hlen⟩ := h
  obtain ⟨b1, b2, b4, c, mid, hpkt⟩ := isFrame_shape hw.1
  subst hpkt
  have hdlen : 10 ≤ mid.length := by
    simp at hlen
    omega
  have hcmd4 : b4 = kCommandReturnArrow := by simpa using hcmd
  refine ⟨_, ⟨mid.getD 0 0 + mid.getD 1 0 * 256, mid.getD 2 0 + mid.getD 3 0 * 256,
      mid.getD 4 0 + mid.getD 5 0 * 256, mid.getD 6 0 + mid.getD 7 0 * 256,
      mid.getD 8 0 + mid.getD 9 0 * 256⟩,
    decode_shape b1 b2 b4 c mid, hcmd4, ?_⟩
  simp only [mkArrow]
  rw [if_pos hdlen]

/-- Unpacking a good mixed record into its decode facts. -/
theorem goodMixedRecord_elim {pkt : List Nat} (h : GoodMixedRecord pkt) :
    ∃ r, decodeResponse pkt = some r ∧
      ((r.command = kCommandReturnBlock ∧ ∃ b, mkBlock r = some b) ∨
       (r.command = kCommandReturnArrow ∧ ∃ a, mkArrow r = some a)) := by
  obtain ⟨hw, hcmd, hlen⟩ := h
  rcases hcmd with hcmd | hcmd
  · obtain ⟨r, b, hdec, hrc, hmk⟩ := goodBlockRecord_elim ⟨hw, hcmd, hlen⟩
    exact ⟨r, hdec, Or.inl ⟨hrc, b, hmk⟩⟩
  · obtain ⟨r, a, hdec, hrc, hmk⟩ := goodArrowRecord_elim ⟨hw, hcmd, hlen⟩
    exact ⟨r, hdec, Or.inr ⟨hrc, a, hmk⟩⟩

/-- The blocks loop, run past any number of good block records and then
an aborting record, returns failure and never touches the learned-id
count. -/
theorem handleBlocksLoop_goods_abort
    {p : List Nat} {rp : Response}
    (hpf : IsFrame p) (hpd : decodeResponse p = some rp)
    (hbad : rp.valid = false ∨ rp.command ≠ kCommandReturnBlock)
    (m : Nat) (rest : List Nat) :
    ∀ goods : List (List Nat), (∀ g ∈ goods, GoodBlockRecord g) →
      ∀ (i : Nat) (s : Session),
        ∃ s2, handleBlocksLoop (goods.length + 1 + m) i s
            (goods.flatten ++ (p ++ rest)) = some (false, s2, rest) ∧
          s2.nLearned = s.nLearned := by
  intro goods
  induction goods with
  | nil =>
    intro _ i s
    refine ⟨s, ?_, rfl⟩
    have h0 : ([] : List (List Nat)).length + 1 + m = m + 1 := by
      simp only [List.length_nil]
      omega
    rw [h0]
    simpa using handleBlocksLoop_abort_step hpf hpd hbad m i s rest
  | cons g gs ih =>
    intro hgoods i s
    obtain ⟨r, b, hrdec, hrcmd, hrmk⟩ := goodBlockRecord_elim (hgoods g (by simp))
    have hgw : WellFormed g := (hgoods g (by simp)).1
    have hlen1 : (g :: gs).length + 1 + m = (gs.length + 1 + m) + 1 := by
      simp only [List.length_cons]
      omega
    have hstream : (g :: gs).flatten ++ (p ++ rest) =
        g ++ (gs.flatten ++ (p ++ rest)) := by simp
    rw [hlen1, hstream]
    rw [handleBlocksLoop_step hgw.1 hgw.2 hrdec hrcmd hrmk]
    obtain ⟨s2, hs2, hn⟩ := ih (fun x hx => hgoods x (by simp [hx])) (i + 1)
      { s with blocks := s.blocks.set i (some b) }
    exact ⟨s2, hs2, hn⟩

/-- The arrows loop, run past any number of good arrow records and then
an aborting record, returns failure and never touches the learned-id
count. -/
theorem handleArrowsLoop_goods_abort
    {p : List Nat} {rp : Response}
    (hpf : IsFrame p) (hpd : decodeResponse p = some rp)
    (hbad : rp.valid = false ∨ rp.command ≠ kCommandReturnArrow)
    (m : Nat) (rest : List Nat) :
    ∀ goods : List (List Nat), (∀ g ∈ goods, GoodArrowRecord g) →
      ∀ (i : Nat) (s : Session),
        ∃ s2, handleArrowsLoop (goods.length + 1 + m) i s
            (goods.flatten ++ (p ++ rest)) = some (false, s2, rest) ∧
          s2.nLearned = s.nLearned := by
  intro goods
  induction goods with
  | nil =>
    intro _ i s
    refine ⟨s, ?_, rfl⟩
    have h0 : ([] : List (List Nat)).length + 1 + m = m + 1 := by
      simp only [List.length_nil]
      omega
    rw [h0]
    simpa using handleArrowsLoop_abort_step hpf hpd hbad m i s rest
  | cons g gs ih =>
    intro hgoods i s
    obtain ⟨r, a, hrdec, hrcmd, hrmk⟩ := goodArrowRecord_elim (hgoods g (by simp))
    have hgw : WellFormed g := (hgoods g (by simp)).1
    have hlen1 : (g :: gs).length + 1 + m = (gs.length + 1 + m) + 1 := by
      simp only [List.length_cons]
      omega
    have hstream : (g :: gs).flatten ++ (p ++ rest) =
        g ++ (gs.flatten ++ (p ++ rest)) := by simp
    rw [hlen1, hstream]
    rw [handleArrowsLoop_step hgw.1 hgw.2 hrdec hrcmd hrmk]
    obtain ⟨s2, hs2, hn⟩ := ih (fun x hx => hgoods x (by simp [hx])) (i + 1)
      { s with arrows := s.arrows.set i (some a) }
    exact ⟨s2, hs2, hn⟩

/-- The mixed loop, run past any number of good block or arrow records
and then an aborting record, returns failure and never touches the
learned-id count. -/
theorem handleMixedLoop_goods_abort
    {p : List Nat} {rp : Response}
    (hpf : IsFrame p) (hpd : decodeResponse p = some rp)
    (hbad : rp.valid = false ∨
      (rp.command ≠ kCommandReturnBlock ∧ rp.command ≠ kCommandReturnArrow))
    (m : Nat) (rest : List Nat) :
    ∀ goods : List (List Nat), (∀ g ∈ goods, GoodMixedRecord g) →
      ∀ s : Session,
        ∃ s2, handleMixedLoop (goods.length + 1 + m) s
            (goods.flatten ++ (p ++ rest)) = some (false, s2, rest) ∧
          s2.nLearned = s.nLearned := by
  intro goods
  induction goods with
  | nil =>
    intro _ s
    refine ⟨s, ?_, rfl⟩
    have h0 : ([] : List (List Nat)).length + 1 + m = m + 1 := by
      simp only [List.length_nil]
      omega
    rw [h0]
    simpa using handleMixedLoop_abort_step hpf hpd hbad m s rest
  | cons g gs ih =>
    intro hgoods s
    obtain ⟨r, hrdec, hcase⟩ := goodMixedRecord_elim (hgoods g (by simp))
    have hgw : WellFormed g := (hgoods g (by simp)).1
    have hlen1 : (g :: gs).length + 1 + m = (gs.length + 1 + m) + 1 := by
      simp only [List.length_cons]
      omega
    have hstream : (g :: gs).flatten ++ (p ++ rest) =
        g ++ (gs.flatten ++ (p ++ rest)) := by simp
    rw [hlen1, hstream]
    rcases hcase with ⟨hcmd, b, hmk⟩ | ⟨hcmd, a, hmk⟩
    · rw [handleMixedLoop_block_step hgw.1 hgw.2 hrdec hcmd hmk]
      obtain ⟨s2, hs2, hn⟩ := ih (fun x hx => hgoods x (by simp [hx]))
        { s with blocks := s.blocks ++ [some b] }
      exact ⟨s2, hs2, hn⟩
    · rw [handleMixedLoop_arrow_step hgw.1 hgw.2 hrdec hcmd hmk]
      obtain ⟨s2, hs2, hn⟩ := ih (fun x hx => hgoods x (by simp [hx]))
        { s with arrows := s.arrows ++ [some a] }
      exact ⟨s2, hs2, hn⟩

/-- C5: an info envelope declaring two records followed by one good
record of the expected kind and then an aborting packet (checksum-invalid,
or valid with a command code the mode does not expect) makes the fetch
return failure in all three aggregation modes (blocks-only, arrows-only
and mixed), never a one-element success. -/
theorem aggregation_abort_returns_failure
    (s : Session) (e gb ga pb pa pm rest : List Nat)
    (re rgb rga rpb rpa rpm : Response) (bl : Block) (ar : Arrow)
    (hew : WellFormed e) (hed : decodeResponse e = some re)
    (hec : re.command = kCommandReturnInfo) (helen : 6 ≤ re.data.length)
    (hcount : re.data.getD 0 0 + re.data.getD 1 0 * 256 = 2)
    (hgbw : WellFormed gb) (hgbd : decodeResponse gb = some rgb)
    (hgbc : rgb.command = kCommandReturnBlock) (hgbmk : mkBlock rgb = some bl)
    (hgaw : WellFormed ga) (hgad : decodeResponse ga = some rga)
    (hgac : rga.command = kCommandReturnArrow) (hgamk : mkArrow rga = some ar)
    (hpbf : IsFrame pb) (hpbd : decodeResponse pb = some rpb)
    (hbadB : rpb.valid = false ∨ rpb.command ≠ kCommandReturnBlock)
    (hpaf : IsFrame pa) (hpad : decodeResponse pa = some rpa)
    (hbadA : rpa.valid = false ∨ rpa.command ≠ kCommandReturnArrow)
    (hpmf : IsFrame pm) (hpmd : decodeResponse pm = some rpm)
    (hbadM : rpm.valid = false ∨
      (rpm.command ≠ kCommandReturnBlock ∧ rpm.command ≠ kCommandReturnArrow)) :
    requestBlocks s (e ++ (gb ++ (pb ++ rest))) =
      some (false,
        { s with blocks := [some bl, none], nLearned := re.data.getD 2 0 + re.data.getD 3 0 * 256 },
        rest) ∧
    requestArrows s (e ++ (ga ++ (pa ++ rest))) =
      some (false,
        { s with arrows := [some ar, none], nLearned := re.data.getD 2 0 + re.data.getD 3 0 * 256 },
        rest) ∧
    request s (e ++ (gb ++ (pm ++ rest))) =
      some (false,
        { s with blocks := [some bl], arrows := [], nLearned := re.data.getD 2 0 + re.data.getD 3 0 * 256 },
        rest) := by
  refine ⟨?_, ?_, ?_⟩
  · rw [requestBlocks_envelope hew hed hec helen s (gb ++ (pb ++ rest)), hcount]
    rw [(by norm_num : (2 : Nat) = 1 + 1)]
    rw [handleBlocksLoop_step hgbw.1 hgbw.2 hgbd hgbc hgbmk]
    rw [(by norm_num : (1 : Nat) = 0 + 1)]
    rw [handleBlocksLoop_abort_step hpbf hpbd hbadB]
    simp [List.replicate]
  · rw [requestArrows_envelope hew hed hec helen s (ga ++ (pa ++ rest)), hcount]
    rw [(by norm_num : (2 : Nat) = 1 + 1)]
    rw [handleArrowsLoop_step hgaw.1 hgaw.2 hgad hgac hgamk]
    rw [(by norm_num : (1 : Nat) = 0 + 1)]
    rw [handleArrowsLoop_abort_step hpaf hpad hbadA]
    simp [List.replicate]
  · rw [request_envelope hew hed hec helen s (gb ++ (pm ++ rest)), hcount]
    rw [(by norm_num : (2 : Nat) = 1 + 1)]
    rw [handleMixedLoop_block_step hgbw.1 hgbw.2 hgbd hgbc hgbmk]
    rw [(by norm_num : (1 : Nat) = 0 + 1)]
    rw [handleMixedLoop_abort_step hpmf hpmd hbadM]
    simp

/-- C5 witness: envelope declaring 2 records, one good record, then a
second record that is valid but carries the wrong command for the mode
(an arrow in blocks-only mode, a block in arrows-only mode, an OK status
packet in mixed mode). -/
theorem aggregation_abort_returns_failure_witness :
    requestBlocks initSession
        ([85, 170, 17, 6, 41, 2, 0, 5, 0, 7, 0, 77] ++
          ([85, 170, 17, 10, 42, 10, 0, 20, 0, 30, 0, 40, 0, 9, 0, 177] ++
            ([85, 170, 17, 10, 43, 1, 0, 2, 0, 3, 0, 4, 0, 9, 0, 88] ++ []))) =
      some (false, { blocks := [some ⟨10, 20, 30, 40, 9⟩, none]
                     arrows := []
                     nLearned := 5
                     idToName := [] }, []) ∧
    requestArrows initSession
        ([85, 170, 17, 6, 41, 2, 0, 5, 0, 7, 0, 77] ++
          ([85, 170, 17, 10, 43, 1, 0, 2, 0, 3, 0, 4, 0, 9, 0, 88] ++
            ([85, 170, 17, 10, 42, 10, 0, 20, 0, 30, 0, 40, 0, 9, 0, 177] ++ []))) =
      some (false, { blocks := []
                     arrows := [some ⟨1, 2, 3, 4, 9⟩, none]
                     nLearned := 5
                     idToName := [] }, []) ∧
    request initSession
        ([85, 170, 17, 6, 41, 2, 0, 5, 0, 7, 0, 77] ++
          ([85, 170, 17, 10, 42, 10, 0, 20, 0, 30, 0, 40, 0, 9, 0, 177] ++
            ([85, 170, 17, 0, 46, 62] ++ []))) =
      some (false, { blocks := [some ⟨10, 20, 30, 40, 9⟩]
                     arrows := []
                     nLearned := 5
                     idToName := [] }, []) :=
  aggregation_abort_returns_failure initSession
    [85, 170, 17, 6, 41, 2, 0, 5, 0, 7, 0, 77]
    [85, 170, 17, 10, 42, 10, 0, 20, 0, 30, 0, 40, 0, 9, 0, 177]
    [85, 170, 17, 10, 43, 1, 0, 2, 0, 3, 0, 4, 0, 9, 0, 88]
    [85, 170, 17, 10, 43, 1, 0, 2, 0, 3, 0, 4, 0, 9, 0, 88]
    [85, 170, 17, 10, 42, 10, 0, 20, 0, 30, 0, 40, 0, 9, 0, 177]
    [85, 170, 17, 0, 46, 62]
    []
    ⟨85, 170, 17, 6, 41, [2, 0, 5, 0, 7, 0], 77, true⟩
    ⟨85, 170, 17, 10, 42, [10, 0, 20, 0, 30, 0, 40, 0, 9, 0], 177, true⟩
    ⟨85, 170, 17, 10, 43, [1, 0, 2, 0, 3, 0, 4, 0, 9, 0], 88, true⟩
    ⟨85, 170, 17, 10, 43, [1, 0, 2, 0, 3, 0, 4, 0, 9, 0], 88, true⟩
    ⟨85, 170, 17, 10, 42, [10, 0, 20, 0, 30, 0, 40, 0, 9, 0], 177, true⟩
    ⟨85, 170, 17, 0, 46, [], 62, true⟩
    ⟨10, 20, 30, 40, 9⟩ ⟨1, 2, 3, 4, 9⟩
    (by decide) (by decide) (by decide) (by decide) (by decide)
    (by decide) (by decide) (by decide) (by decide)
    (by decide) (by decide) (by decide) (by decide)
    (by decide) (by decide) (by decide)
    (by decide) (by decide) (by decide)
    (by decide) (by decide) (by decide)

/-- C10: in every aggregation mode the learned-id count is assigned from
the envelope before any trailing record is read; hence a fetch that
reads any number of good records and then aborts on an invalid or
wrong-command (out-of-sequence) record, at any position, returns failure
with the learned-id count already replaced by the envelope value: the
failure is not atomic for the learned-id count. -/
theorem learned_count_updated_before_abort
    (s : Session) (e rest : List Nat) (re : Response)
    (goodsB goodsA goodsM : List (List Nat))
    (pb pa pm : List Nat) (rpb rpa rpm : Response) (mB mA mM : Nat)
    (hew : WellFormed e) (hed : decodeResponse e = some re)
    (hec : re.command = kCommandReturnInfo) (helen : 6 ≤ re.data.length)
    (hgoodsB : ∀ g ∈ goodsB, GoodBlockRecord g)
    (hcountB : re.data.getD 0 0 + re.data.getD 1 0 * 256 = goodsB.length + 1 + mB)
    (hpbf : IsFrame pb) (hpbd : decodeResponse pb = some rpb)
    (hbadB : rpb.valid = false ∨ rpb.command ≠ kCommandReturnBlock)
    (hgoodsA : ∀ g ∈ goodsA, GoodArrowRecord g)
    (hcountA : re.data.getD 0 0 + re.data.getD 1 0 * 256 = goodsA.length + 1 + mA)
    (hpaf : IsFrame pa) (hpad : decodeResponse pa = some rpa)
    (hbadA : rpa.valid = false ∨ rpa.command ≠ kCommandReturnArrow)
    (hgoodsM : ∀ g ∈ goodsM, GoodMixedRecord g)
    (hcountM : re.data.getD 0 0 + re.data.getD 1 0 * 256 = goodsM.length + 1 + mM)
    (hpmf : IsFrame pm) (hpmd : decodeResponse pm = some rpm)
    (hbadM : rpm.valid = false ∨
      (rpm.command ≠ kCommandReturnBlock ∧ rpm.command ≠ kCommandReturnArrow)) :
    (∃ s1, requestBlocks s (e ++ (goodsB.flatten ++ (pb ++ rest))) =
        some (false, s1, rest) ∧
      s1.nLearned = re.data.getD 2 0 + re.data.getD 3 0 * 256) ∧
    (∃ s2, requestArrows s (e ++ (goodsA.flatten ++ (pa ++ rest))) =
        some (false, s2, rest) ∧
      s2.nLearned = re.data.getD 2 0 + re.data.getD 3 0 * 256) ∧
    (∃ s3, request s (e ++ (goodsM.flatten ++ (pm ++ rest))) =
        some (false, s3, rest) ∧
      s3.nLearned = re.data.getD 2 0 + re.data.getD 3 0 * 256) := by
  refine ⟨?_, ?_, ?_⟩
  · rw [requestBlocks_envelope hew hed hec helen s (goodsB.flatten ++ (pb ++ rest)),
      hcountB]
    obtain ⟨s2, hs2, hn⟩ := handleBlocksLoop_goods_abort hpbf hpbd hbadB mB rest
      goodsB hgoodsB 0
      { s with blocks := List.replicate (goodsB.length + 1 + mB) none
               nLearned := re.data.getD 2 0 + re.data.getD 3 0 * 256 }
    exact ⟨s2, hs2, hn⟩
  · rw [requestArrows_envelope hew hed hec helen s (goodsA.flatten ++ (pa ++ rest)),
      hcountA]
    obtain ⟨s2, hs2, hn⟩ := handleArrowsLoop_goods_abort hpaf hpad hbadA mA rest
      goodsA hgoodsA 0
      { s with arrows := List.replicate (goodsA.length + 1 + mA) none
               nLearned := re.data.getD 2 0 + re.data.getD 3 0 * 256 }
    exact ⟨s2, hs2, hn⟩
  · rw [request_envelope hew hed hec helen s (goodsM.flatten ++ (pm ++ rest)),
      hcountM]
    obtain ⟨s2, hs2, hn⟩ := handleMixedLoop_goods_abort hpmf hpmd hbadM mM rest
      goodsM hgoodsM
      { s with blocks := []
               arrows := []
               nLearned := re.data.getD 2 0 + re.data.getD 3 0 * 256 }
    exact ⟨s2, hs2, hn⟩

/-- C10 witness: envelope declaring 2 records and 5 learned ids, one
good record, then a valid wrong-command record (blocks and arrows modes)
or a valid OK status packet (mixed mode); every failed fetch exits with
the count already at 5. -/
theorem learned_count_updated_before_abort_witness :
    (∃ s1, requestBlocks initSession
        ([85, 170, 17, 6, 41, 2, 0, 5, 0, 7, 0, 77] ++
          ([[85, 170, 17, 10, 42, 10, 0, 20, 0, 30, 0, 40, 0, 9, 0, 177]].flatten ++
            ([85, 170, 17, 10, 43, 1, 0, 2, 0, 3, 0, 4, 0, 9, 0, 88] ++ []))) =
        some (false, s1, []) ∧ s1.nLearned = 5) ∧
    (∃ s2, requestArrows initSession
        ([85, 170, 17, 6, 41, 2, 0, 5, 0, 7, 0, 77] ++
          ([[85, 170, 17, 10, 43, 1, 0, 2, 0, 3, 0, 4, 0, 9, 0, 88]].flatten ++
            ([85, 170, 17, 10, 42, 10, 0, 20, 0, 30, 0, 40, 0, 9, 0, 177] ++ []))) =
        some (false, s2, []) ∧ s2.nLearned = 5) ∧
    (∃ s3, request initSession
        ([85, 170, 17, 6, 41, 2, 0, 5, 0, 7, 0, 77] ++
          ([[85, 170, 17, 10, 42, 10, 0, 20, 0, 30, 0, 40, 0, 9, 0, 177]].flatten ++
            ([85, 170, 17, 0, 46, 62] ++ []))) =
        some (false, s3, []) ∧ s3.nLearned = 5) :=
  learned_count_updated_before_abort initSession
    [85, 170, 17, 6, 41, 2, 0, 5, 0, 7, 0, 77]
    []
    ⟨85, 170, 17, 6, 41, [2, 0, 5, 0, 7, 0], 77, true⟩
    [[85, 170, 17, 10, 42, 10, 0, 20, 0, 30, 0, 40, 0, 9, 0, 177]]
    [[85, 170, 17, 10, 43, 1, 0, 2, 0, 3, 0, 4, 0, 9, 0, 88]]
    [[85, 170, 17, 10, 42, 10, 0, 20, 0, 30, 0, 40, 0, 9, 0, 177]]
    [85, 170, 17, 10, 43, 1, 0, 2, 0, 3, 0, 4, 0, 9, 0, 88]
    [85, 170, 17, 10, 42, 10, 0, 20, 0, 30, 0, 40, 0, 9, 0, 177]
    [85, 170, 17, 0, 46, 62]
    ⟨85, 170, 17, 10, 43, [1, 0, 2, 0, 3, 0, 4, 0, 9, 0], 88, true⟩
    ⟨85, 170, 17, 10, 42, [10, 0, 20, 0, 30, 0, 40, 0, 9, 0], 177, true⟩
    ⟨85, 170, 17, 0, 46, [], 62, true⟩
    0 0 0
    (by decide) (by decide) (by decide) (by decide)
    (by decide) (by decide) (by decide) (by decide) (by decide)
    (by decide) (by decide) (by decide) (by decide) (by decide)
    (by decide) (by decide) (by decide) (by decide) (by decide)

/-- C9 counterexample: the knock operation returns a bare boolean, and
its entire observable result on a valid busy-status response equals its
result on a valid need-pro response and on a checksum-invalid response;
the driver gives the caller no distinct failure reason for the two
device-rejection codes. -/
theorem busy_needpro_not_distinct_counterexample :
    requestKnock initSession [85, 170, 17, 0, 61, 77] =
      requestKnock initSession [85, 170, 17, 0, 62, 78] ∧
    requestKnock initSession [85, 170, 17, 0, 61, 77] =
      requestKnock initSession [85, 170, 17, 0, 46, 0] ∧
    requestKnock initSession [85, 170, 17, 0, 61, 77] =
      some (false, initSession, [[85, 170, 17, 0, 44, 60]], []) := by
  refine ⟨?_, ?_, ?_⟩ <;> decide

/-- C9 amended: a valid response carrying the busy or need-pro status
code makes knock, set-algorithm and the model-tier query fail, but the
failure is the same plain `false` value produced by every other failure
(checksum-invalid or unexpected command), so the rejection reasons are
not distinguishable from the result. -/
theorem busy_needpro_plain_failure
    (s : Session) (st rest : List Nat) (r : Response) (algorithm : Nat)
    (halg : algorithm ∈ algorithmCodes)
    (h : getResponse st = some (r, rest)) (hv : r.valid = true)
    (hc : r.command = kCommandReturnBusy ∨ r.command = kCommandReturnNeedPro) :
    requestKnock s st =
      some (false, s, [sendCommandPkt kCommandRequestKnock []], rest) ∧
    requestAlgorithm s algorithm st =
      some (false, s,
        [sendCommandPkt kCommandRequestAlgorithm [algorithm % 256, algorithm / 256]],
        rest) ∧
    requestIsPro s st =
      some (false, s, [sendCommandPkt kCommandRequestIsPro []], rest) := by
  refine ⟨?_, ?_, ?_⟩
  · simp only [requestKnock, h]
    rcases hc with hc | hc <;>
      simp [hc, kCommandReturnBusy, kCommandReturnNeedPro, kCommandReturnOk]
  · simp only [requestAlgorithm]
    rw [if_neg (not_not_intro halg)]
    simp only [h]
    rcases hc with hc | hc <;>
      simp [hc, kCommandReturnBusy, kCommandReturnNeedPro, kCommandReturnOk]
  · simp only [requestIsPro, h]
    rcases hc with hc | hc <;>
      simp [hc, hv, kCommandReturnBusy, kCommandReturnNeedPro, kCommandReturnIsPro]

/-- C9 amended witness: a valid busy response rejected by all three
status operations. -/
theorem busy_needpro_plain_failure_witness :
    requestKnock initSession [85, 170, 17, 0, 61, 77] =
      some (false, initSession, [[85, 170, 17, 0, 44, 60]], []) ∧
    requestAlgorithm initSession 0 [85, 170, 17, 0, 61, 77] =
      some (false, initSession, [[85, 170, 17, 2, 45, 0, 0, 63]], []) ∧
    requestIsPro initSession [85, 170, 17, 0, 61, 77] =
      some (false, initSession, [[85, 170, 17, 0, 59, 75]], []) :=
  busy_needpro_plain_failure initSession [85, 170, 17, 0, 61, 77] []
    ⟨85, 170, 17, 0, 61, [], 77, true⟩ 0
    (by decide) (by decide) (by decide) (by decide)

end HuskyLens
